import Mathlib

/-!
Shallow embedding of the FRA Atlas backend (src/backend/server.py).

Conventions of the embedding:
* MongoDB's `db.claims` collection is a `List Claim`; `insert_one` appends,
  `find_one` is `List.find?`, `find` with a filter is `List.filter`,
  `count_documents` counts the matching documents, and `update_one` with a
  `$set`/`$push` document replaces the first matching record (returning the
  `modified_count`, which is 0 when no record matched or when the written
  record equals the old one, exactly as MongoDB reports it).
* `datetime.utcnow()` is an abstract `Nat` timestamp passed in as `now`;
  within one request handler all `utcnow()` calls are modeled by the same
  `now` (they are issued back to back).
* The external LLM (`chat.send_message` inside a `try` block) is modeled by
  its outcome, a function of the prompt returning `Except String String`:
  `.ok response` when the call returns, `.error e` when any exception with
  message `e` escapes anywhere inside the `try` block.
* Role strings are exactly the source's literals: the spec's CommunityUser,
  NGO, DistrictOfficer, Ministry are stored as "Community User", "NGO",
  "District Officer", "Ministry".
* A claim's `location` dict is `Option Location`: `none` models a missing,
  null or empty (falsy) location, matching the `claim.get("location")`
  truthiness test in `get_map_data`.
* `HTTPException`s raised by a handler are the `.error` side of an `Except`;
  handlers that can raise after touching the store also return the
  resulting store.
* Python float arithmetic (`approved / total * 100`) is modeled over `ℚ`;
  the operands are integer counts, so the formula itself is exact.
-/

namespace FRA

/-- The `location` value of a claim:
`\x7blat, lng, address, state, district, village\x7d`. `state` is `Option`
because reporting groups by `location.state`, which a raw document may lack.
Coordinates are abstracted to `ℚ`. -/
structure Location where
  lat : ℚ
  lng : ℚ
  address : String
  state : Option String
  district : String
  village : String
deriving DecidableEq

/-- An authenticated user as resolved by `get_current_user` (the fields of
the `users` document that the handlers read: `_id` and `role`, plus identity
fields). -/
structure User where
  id : String
  email : String
  full_name : String
  role : String
deriving DecidableEq

/-- A stored claim document in `db.claims`. `reviewed_by` and
`officer_notes` are absent (`none`) until a status update sets them. -/
structure Claim where
  id : String
  user_id : Option String
  title : String
  description : String
  location : Option Location
  status : String
  documents : List String
  ai_analysis : Option String
  created_at : Nat
  updated_at : Nat
  area_hectares : Option ℚ
  forest_type : Option String
  community_details : Option String
  reviewed_by : Option String := none
  officer_notes : Option String := none
deriving DecidableEq

/-- The `FRAClaim` pydantic request model for `POST /api/claims`: every
field the client may supply, with the model's defaults (`status` defaults to
"pending", `documents` to `[]`). `id`, `created_at` and `updated_at` also
exist on the pydantic model (with generated defaults) but are overridden
unconditionally by `create_claim`. -/
structure FRAClaim where
  id : String
  user_id : Option String := none
  title : String
  description : String
  location : Option Location
  status : String := "pending"
  documents : List String := []
  ai_analysis : Option String := none
  created_at : Nat
  updated_at : Nat
  area_hectares : Option ℚ := none
  forest_type : Option String := none
  community_details : Option String := none
deriving DecidableEq

/-- The `ClaimUpdate` request model for `PUT /api/claims/.../status`. -/
structure ClaimUpdate where
  status : String
  officer_notes : Option String := none
deriving DecidableEq

/-- The error side of an `HTTPException` raised by the handlers in scope:
404 "Claim not found", 403 "Access denied", 403 "Insufficient permissions". -/
inductive ApiError where
  | notFound
  | accessDenied
  | insufficientPermissions
deriving DecidableEq

/-- Mongo `update_one(filter, update)`: apply `f` to the first record
matching `p`, returning the new collection and the `modified_count`
(0 when nothing matched, and also 0 when the rewritten record is
byte-identical to the old one, as MongoDB counts only actual changes). -/
def update_one (p : Claim → Bool) (f : Claim → Claim) : List Claim → List Claim × Nat
  | [] => ([], 0)
  | a :: l =>
    if p a then (f a :: l, if f a = a then 0 else 1)
    else
      let r := update_one p f l
      (a :: r.1, r.2)

/-- Mongo `count_documents(filter)`. -/
def count_documents (p : Claim → Bool) (store : List Claim) : Nat :=
  (store.filter p).length

/-- `POST /api/claims` (`create_claim`): takes the request payload and the
authenticated user; copies the payload dict, then overrides `user_id` with
the actor's `_id`, `_id` with a fresh uuid (`new_id`), and both timestamps
with `utcnow()`; inserts the document and returns it. -/
def create_claim (claim_data : FRAClaim) (current_user : User)
    (new_id : String) (now : Nat) (store : List Claim) : Claim × List Claim :=
  let claim_dict : Claim :=
    { id := new_id
      user_id := some current_user.id
      title := claim_data.title
      description := claim_data.description
      location := claim_data.location
      status := claim_data.status
      documents := claim_data.documents
      ai_analysis := claim_data.ai_analysis
      created_at := now
      updated_at := now
      area_hectares := claim_data.area_hectares
      forest_type := claim_data.forest_type
      community_details := claim_data.community_details }
  (claim_dict, store ++ [claim_dict])

/-- `GET /api/claims` (`get_claims`): a "Community User" gets the claims
filtered by their own `user_id`; every other role gets the full collection. -/
def get_claims (current_user : User) (store : List Claim) : List Claim :=
  if current_user.role ∈ (["Community User"] : List String) then
    store.filter (fun c => c.user_id == some current_user.id)
  else
    store

/-- `GET /api/claims/\x7bclaim_id\x7d` (`get_claim`): 404 when the id is
absent; 403 for a "Community User" who does not own the claim. -/
def get_claim (claim_id : String) (current_user : User) (store : List Claim) :
    Except ApiError Claim :=
  match store.find? (fun c => c.id == claim_id) with
  | none => .error .notFound
  | some claim =>
    if current_user.role = "Community User" ∧ claim.user_id ≠ some current_user.id then
      .error .accessDenied
    else
      .ok claim

/-- The source's `update_dict`, applied as a `$set` to a stored claim:
sets `status`, `updated_at`, `officer_notes` and `reviewed_by`. -/
def status_update_write (update_data : ClaimUpdate) (current_user : User)
    (now : Nat) (c : Claim) : Claim :=
  { c with
    status := update_data.status
    updated_at := now
    officer_notes := update_data.officer_notes
    reviewed_by := some current_user.id }

/-- `PUT /api/claims/\x7bclaim_id\x7d/status` (`update_claim_status`):
403 unless the role is "District Officer" or "Ministry" (checked before any
store access); otherwise a single `update_one` that `$set`s the
`status_update_write` fields; raises 404 afterwards when
`modified_count == 0`. The pair carries the handler outcome and the store
as it stands when the handler returns or raises. -/
def update_claim_status (claim_id : String) (update_data : ClaimUpdate)
    (current_user : User) (now : Nat) (store : List Claim) :
    Except ApiError Unit × List Claim :=
  if current_user.role ∈ (["District Officer", "Ministry"] : List String) then
    let result := update_one (fun c => c.id == claim_id)
      (status_update_write update_data current_user now) store
    if result.2 = 0 then (.error .notFound, result.1)
    else (.ok (), result.1)
  else
    (.error .insufficientPermissions, store)

/-- The `analysis_prompt` f-string of `analyze_document_with_ai`: its
variable part interpolates the claim's title and the location's address
(`claim_data.get('location', \x7b\x7d).get('address', 'Unknown location')`). -/
def analysis_prompt (claim_data : Claim) : String :=
  "Analyze this FRA claim document and extract the following information: " ++
  "claimant details, land details, evidence of traditional occupation, " ++
  "document authenticity indicators, missing information or red flags. " ++
  "Context: This claim is for " ++ claim_data.title ++ " in " ++
  (match claim_data.location with
   | some loc => loc.address
   | none => "Unknown location") ++
  ". Provide a structured analysis in JSON format."

/-- `analyze_document_with_ai`: sends the analysis prompt (with the document
attached) to the external LLM; any exception is caught and turned into the
string "AI analysis failed: " followed by the exception message. `send` is
the modeled external call (see the header). `file_path` only feeds the
attachment, which the outcome function already accounts for. -/
def analyze_document_with_ai (file_path : String) (claim_data : Claim)
    (send : String → Except String String) : String :=
  match send (analysis_prompt claim_data) with
  | .ok response => response
  | .error e => "AI analysis failed: " ++ e

/-- The JSON body returned by a successful `upload_document`. -/
structure UploadResponse where
  message : String
  file_path : String
  ai_analysis : String
deriving DecidableEq

/-- `POST /api/claims/\x7bclaim_id\x7d/upload` (`upload_document`):
404 when the claim is absent, 403 for a non-owning "Community User";
otherwise the file is saved under `/app/uploads/`, the document is analyzed
(`analyze_document_with_ai` never throws), and one `update_one` `$push`es
the file path onto `documents` and `$set`s `ai_analysis` and `updated_at`.
The handler then reports success unconditionally. -/
def upload_document (claim_id : String) (filename : String)
    (current_user : User) (send : String → Except String String)
    (now : Nat) (store : List Claim) :
    Except ApiError UploadResponse × List Claim :=
  match store.find? (fun c => c.id == claim_id) with
  | none => (.error .notFound, store)
  | some claim =>
    if current_user.role = "Community User" ∧ claim.user_id ≠ some current_user.id then
      (.error .accessDenied, store)
    else
      let file_path := "/app/uploads/" ++ claim_id ++ "_" ++ filename
      let ai_analysis := analyze_document_with_ai file_path claim send
      let result := update_one (fun c => c.id == claim_id)
        (fun c =>
          { c with
            documents := c.documents ++ [file_path]
            ai_analysis := some ai_analysis
            updated_at := now }) store
      (.ok { message := "Document uploaded and analyzed successfully"
             file_path := file_path
             ai_analysis := ai_analysis }, result.1)

/-- The data interpolated into the dashboard-insights prompt f-string of
`generate_insights_for_dashboard`: the four counts computed from
`claims_data` and `claims_data[:5]` (the sample serialized via
`json.dumps`). -/
structure InsightsPrompt where
  total_claims : Nat
  approved : Nat
  pending : Nat
  rejected : Nat
  sample_claims : List Claim
deriving DecidableEq

/-- Builds the insights prompt data exactly as the handler does: `len`,
three `status` filters, and the `[:5]` slice. -/
def insights_prompt (claims_data : List Claim) : InsightsPrompt :=
  { total_claims := claims_data.length
    approved := (claims_data.filter (fun c => c.status == "approved")).length
    pending := (claims_data.filter (fun c => c.status == "pending")).length
    rejected := (claims_data.filter (fun c => c.status == "rejected")).length
    sample_claims := claims_data.take 5 }

/-- The dict returned by `generate_insights_for_dashboard`. -/
structure Insights where
  ai_insights : String
  generated_at : Nat
deriving DecidableEq

/-- `generate_insights_for_dashboard`: sends the prompt to the external LLM
and returns its text verbatim with a generation timestamp; any exception is
caught and replaced by "Insights generation failed: " plus the message,
still with a timestamp. The function is total: no failure escapes. -/
def generate_insights_for_dashboard (claims_data : List Claim)
    (send : InsightsPrompt → Except String String) (now : Nat) : Insights :=
  match send (insights_prompt claims_data) with
  | .ok response => { ai_insights := response, generated_at := now }
  | .error e => { ai_insights := "Insights generation failed: " ++ e, generated_at := now }

/-- The `statistics` sub-dict of the dashboard response. Note the code
computes no count for the "under_review" status. -/
structure Statistics where
  total_claims : Nat
  approved_claims : Nat
  pending_claims : Nat
  rejected_claims : Nat
  approval_rate : ℚ
deriving DecidableEq

/-- The full `GET /api/dashboard/stats` response body. -/
structure DashboardStats where
  statistics : Statistics
  ai_insights : Insights
  last_updated : Nat
deriving DecidableEq

/-- `GET /api/dashboard/stats` (`get_dashboard_stats`): four
`count_documents` queries over the whole collection (no role filter), the
insights call over all claims, and
`approval_rate = approved / total * 100` guarded by `if total_claims > 0`.
`current_user` only had to authenticate; the handler never reads it. -/
def get_dashboard_stats (current_user : User)
    (send : InsightsPrompt → Except String String) (now : Nat)
    (store : List Claim) : DashboardStats :=
  let total_claims := count_documents (fun _ => true) store
  let approved_claims := count_documents (fun c => c.status == "approved") store
  let pending_claims := count_documents (fun c => c.status == "pending") store
  let rejected_claims := count_documents (fun c => c.status == "rejected") store
  let all_claims := store
  let ai_insights := generate_insights_for_dashboard all_claims send now
  { statistics :=
      { total_claims := total_claims
        approved_claims := approved_claims
        pending_claims := pending_claims
        rejected_claims := rejected_claims
        approval_rate :=
          if total_claims > 0 then (approved_claims : ℚ) / (total_claims : ℚ) * 100
          else 0 }
    ai_insights := ai_insights
    last_updated := now }

/-- One entry of the `GET /api/dashboard/map-data` response. -/
structure MapEntry where
  id : String
  title : String
  status : String
  location : Location
  created_at : Nat
deriving DecidableEq

/-- `GET /api/dashboard/map-data` (`get_map_data`): scans the whole
collection (no role filter) and emits an entry for every claim whose
`location` is truthy. `current_user` only had to authenticate; the handler
never reads it. -/
def get_map_data (current_user : User) (store : List Claim) : List MapEntry :=
  store.filterMap (fun claim =>
    claim.location.map (fun loc =>
      { id := claim.id
        title := claim.title
        status := claim.status
        location := loc
        created_at := claim.created_at }))

/-- The `$group` key `"$location.state"`: `none` when the location or its
`state` field is missing/null (MongoDB groups those under `_id: null`). -/
def state_key (claim : Claim) : Option String :=
  claim.location.bind (fun loc => loc.state)

/-- One group document produced by the summary aggregation pipeline
(`_id` is the state key, the rest are the `$sum` accumulators). -/
structure RegionGroup where
  id : Option String
  total_claims : Nat
  approved : Nat
  pending : Nat
  rejected : Nat
deriving DecidableEq

/-- The accumulators of the `$group` stage for one key `k`: a `$sum: 1`
total and three `$cond`-guarded status sums over the claims of that group. -/
def group_for (store : List Claim) (k : Option String) : RegionGroup :=
  let grp := store.filter (fun c => state_key c == k)
  { id := k
    total_claims := grp.length
    approved := (grp.filter (fun c => c.status == "approved")).length
    pending := (grp.filter (fun c => c.status == "pending")).length
    rejected := (grp.filter (fun c => c.status == "rejected")).length }

/-- `GET /api/reports/summary` (`get_summary_report`): the aggregation
groups the whole collection (no role filter, no `$match`) by
`location.state`, one group per distinct key, absent keys included as the
null group. `current_user` only had to authenticate; the handler never
reads it. -/
def get_summary_report (current_user : User) (store : List Claim) :
    List RegionGroup :=
  ((store.map state_key).dedup).map (group_for store)

/-! ### Sample data used by witnesses and counterexamples -/

/-- A registered "Community User". -/
def sample_owner : User :=
  { id := "u1", email := "owner@example.com", full_name := "Asha", role := "Community User" }

/-- A registered "District Officer". -/
def sample_officer : User :=
  { id := "o1", email := "officer@example.com", full_name := "Ravi", role := "District Officer" }

/-- A location in state "A". -/
def sample_location_A : Location :=
  { lat := 1, lng := 2, address := "addr A", state := some "A", district := "D", village := "V" }

/-- A location in state "B". -/
def sample_location_B : Location :=
  { sample_location_A with address := "addr B", state := some "B" }

/-- A pending claim owned by `sample_owner`. -/
def sample_claim : Claim :=
  { id := "c1", user_id := some "u1", title := "Claim one", description := "desc"
    location := some sample_location_A, status := "pending", documents := []
    ai_analysis := none, created_at := 0, updated_at := 0
    area_hectares := none, forest_type := none, community_details := none }

/-- An approved claim. -/
def approved_claim : Claim :=
  { sample_claim with id := "a1", status := "approved" }

/-- A located claim owned by somebody other than `sample_owner`. -/
def other_users_claim : Claim :=
  { sample_claim with id := "z1", user_id := some "u2" }

/-- A creation payload that tries to spoof both the owner and the status. -/
def spoofing_payload : FRAClaim :=
  { id := "ignored", user_id := some "u2", title := "T", description := "D"
    location := none, status := "approved", created_at := 7, updated_at := 7 }

/-- Claims for the regional-summary example of the spec. -/
def claim_A_approved : Claim :=
  { sample_claim with id := "r1", location := some sample_location_A, status := "approved" }

def claim_A_pending : Claim :=
  { sample_claim with id := "r2", location := some sample_location_A, status := "pending" }

def claim_B_rejected : Claim :=
  { sample_claim with id := "r3", location := some sample_location_B, status := "rejected" }

/-- An external-AI stub whose call always raises. -/
def failing_send : String → Except String String := fun _ => .error "timeout"

/-- An external-AI stub for the insights endpoint that always raises. -/
def failing_insights_send : InsightsPrompt → Except String String :=
  fun _ => .error "quota exceeded"

/-- An external-AI stub for the insights endpoint that always answers. -/
def ok_insights_send : InsightsPrompt → Except String String :=
  fun _ => .ok "narrative"

/-! ### Helper lemmas about the Mongo `update_one` model -/

/-- `update_one` on a collection with no matching record returns the
collection unchanged with `modified_count = 0`. -/
theorem update_one_of_find?_eq_none (p : Claim → Bool) (f : Claim → Claim)
    (store : List Claim) (h : store.find? p = none) :
    update_one p f store = (store, 0) := by
  induction store with
  | nil => rfl
  | cons a l ih =>
    rw [List.find?_eq_none] at h
    have ha : ¬ p a := h a (List.mem_cons_self a l)
    have hl : l.find? p = none := by
      rw [List.find?_eq_none]
      exact fun x hx => h x (List.mem_cons_of_mem a hx)
    simp [update_one, ha, ih hl]

/-- `update_one` on a collection whose first match is `c` rewrites that
record to `f c`; the `modified_count` is 1 exactly when the record actually
changed, and whenever `f c` still satisfies the filter, the rewritten record
is the first match of the new collection. -/
theorem update_one_of_find?_eq_some (p : Claim → Bool) (f : Claim → Claim)
    (store : List Claim) (c : Claim) (h : store.find? p = some c) :
    (update_one p f store).2 = (if f c = c then 0 else 1) ∧
    (p (f c) = true → (update_one p f store).1.find? p = some (f c)) := by
  induction store with
  | nil => simp at h
  | cons a l ih =>
    by_cases ha : p a
    · have hac : a = c := by
        rw [List.find?_cons_of_pos l ha] at h
        exact Option.some.inj h
      subst hac
      refine ⟨by simp [update_one, ha], fun hfc => ?_⟩
      simp [update_one, ha, List.find?_cons_of_pos l hfc]
    · rw [List.find?_cons_of_neg l ha] at h
      obtain ⟨h1, h2⟩ := ih h
      refine ⟨by simp [update_one, ha, h1], fun hfc => ?_⟩
      simpa [update_one, ha, List.find?_cons_of_neg _ ha] using h2 hfc

/-- Shared workhorse: an authorized status update against a present claim
whose stored `updated_at` differs from `now` succeeds and leaves the
`$set` record as the first match for the claim id. -/
theorem update_claim_status_sets (claim_id : String) (update_data : ClaimUpdate)
    (current_user : User) (now : Nat) (store : List Claim) (c : Claim)
    (hmem : current_user.role ∈ (["District Officer", "Ministry"] : List String))
    (hfind : store.find? (fun x => x.id == claim_id) = some c)
    (hne : now ≠ c.updated_at) :
    (update_claim_status claim_id update_data current_user now store).1 = .ok () ∧
    (update_claim_status claim_id update_data current_user now store).2.find?
        (fun x => x.id == claim_id) =
      some (status_update_write update_data current_user now c) := by
  have hp : (c.id == claim_id) = true := by
    have h := List.find?_some hfind
    simpa using h
  have hpf : (fun x : Claim => x.id == claim_id)
      (status_update_write update_data current_user now c) = true := hp
  have hchanged :
      status_update_write update_data current_user now c ≠ c := by
    intro hcontra
    exact hne (congrArg Claim.updated_at hcontra)
  obtain ⟨hcount, hfind2⟩ := update_one_of_find?_eq_some
    (fun x => x.id == claim_id)
    (status_update_write update_data current_user now) store c hfind
  rw [if_neg hchanged] at hcount
  have hres := hfind2 hpf
  constructor
  · simp [update_claim_status, hmem, hcount]
  · simp [update_claim_status, hmem, hcount, hres]

/-! ### Claim theorems -/

/-- C1: For every create-claim request by an authenticated user, the created
claim's owner (`user_id`) equals the acting user's id, regardless of any
owner/`user_id` value supplied in the request payload (the payload
`claim_data` is universally quantified, so in particular its `user_id` field
is arbitrary); the claim is inserted as returned. -/
theorem create_claim_forces_owner (claim_data : FRAClaim) (current_user : User)
    (new_id : String) (now : Nat) (store : List Claim) :
    (create_claim claim_data current_user new_id now store).1.user_id =
      some current_user.id ∧
    (create_claim claim_data current_user new_id now store).2 =
      store ++ [(create_claim claim_data current_user new_id now store).1] :=
  ⟨rfl, rfl⟩

/-- C2: A status-update request by an authenticated user whose role is
neither "District Officer" nor "Ministry" fails with insufficient
permissions and returns the store exactly as it was: no claim is touched,
so in particular every claim's `status` and `updated_at` are unchanged (the
role check runs before any store write). -/
theorem update_claim_status_unauthorized (claim_id : String)
    (update_data : ClaimUpdate) (current_user : User) (now : Nat)
    (store : List Claim)
    (h1 : current_user.role ≠ "District Officer")
    (h2 : current_user.role ≠ "Ministry") :
    update_claim_status claim_id update_data current_user now store =
      (.error .insufficientPermissions, store) := by
  simp [update_claim_status, h1, h2]

/-- Witness for C2: a "Community User" attempting to approve a claim is
rejected and the stored claim is byte-identical afterwards. -/
theorem update_claim_status_unauthorized_witness :
    update_claim_status "c1" ⟨"approved", some "notes"⟩ sample_owner 5 [sample_claim] =
      (.error .insufficientPermissions, [sample_claim]) :=
  update_claim_status_unauthorized "c1" ⟨"approved", some "notes"⟩ sample_owner 5
    [sample_claim] (by decide) (by decide)

/-- C3: An authorized status update ("District Officer" or "Ministry")
against an existing claim, for any prior status: succeeds, sets the claim's
`status` to the requested status, `reviewed_by` to the acting officer's id,
`officer_notes` to the supplied notes, and advances `updated_at` (under the
clock monotonicity `c.updated_at < now`); and a status update targeting a
claim id that is not in the store fails with not-found, leaving the store
unchanged. -/
theorem update_claim_status_authorized (claim_id : String)
    (update_data : ClaimUpdate) (current_user : User) (now : Nat)
    (store : List Claim)
    (hrole : current_user.role = "District Officer" ∨ current_user.role = "Ministry") :
    (∀ c, store.find? (fun x => x.id == claim_id) = some c →
       c.updated_at < now →
       (update_claim_status claim_id update_data current_user now store).1 = .ok () ∧
       ∃ c2,
         (update_claim_status claim_id update_data current_user now store).2.find?
             (fun x => x.id == claim_id) = some c2 ∧
         c2.status = update_data.status ∧
         c2.reviewed_by = some current_user.id ∧
         c2.officer_notes = update_data.officer_notes ∧
         c2.updated_at = now ∧
         c.updated_at < c2.updated_at) ∧
    (store.find? (fun x => x.id == claim_id) = none →
       update_claim_status claim_id update_data current_user now store =
         (.error .notFound, store)) := by
  have hmem : current_user.role ∈ (["District Officer", "Ministry"] : List String) := by
    rcases hrole with h | h <;> simp [h]
  constructor
  · intro c hfind htime
    obtain ⟨hok, hfind2⟩ := update_claim_status_sets claim_id update_data
      current_user now store c hmem hfind (Nat.ne_of_gt htime)
    exact ⟨hok, status_update_write update_data current_user now c, hfind2,
      rfl, rfl, rfl, rfl, htime⟩
  · intro hnone
    have hupd := update_one_of_find?_eq_none (fun x => x.id == claim_id)
      (status_update_write update_data current_user now) store hnone
    simp [update_claim_status, hmem, hupd]

/-- Witness for C3: a "District Officer" approving the pending
`sample_claim` with notes succeeds and rewrites the stored record; a
status update against an id that is absent fails with not-found. -/
theorem update_claim_status_authorized_witness :
    ((update_claim_status "c1" ⟨"approved", some "verified"⟩ sample_officer 5
        [sample_claim]).1 = .ok () ∧
     ∃ c2,
       (update_claim_status "c1" ⟨"approved", some "verified"⟩ sample_officer 5
           [sample_claim]).2.find? (fun x => x.id == "c1") = some c2 ∧
       c2.status = "approved" ∧
       c2.reviewed_by = some sample_officer.id ∧
       c2.officer_notes = some "verified" ∧
       c2.updated_at = 5 ∧
       sample_claim.updated_at < c2.updated_at) ∧
    update_claim_status "missing" ⟨"approved", some "verified"⟩ sample_officer 5
        [sample_claim] = (.error .notFound, [sample_claim]) :=
  ⟨(update_claim_status_authorized "c1" ⟨"approved", some "verified"⟩ sample_officer 5
      [sample_claim] (Or.inl rfl)).1 sample_claim (by decide) (by decide),
   (update_claim_status_authorized "missing" ⟨"approved", some "verified"⟩ sample_officer 5
      [sample_claim] (Or.inl rfl)).2 (by decide)⟩

/-- C4: An authorized document upload against an existing claim reports
success and appends exactly one entry to the claim's `documents` list, for
every possible outcome of the external AI analyzer (`send` is universally
quantified, so in particular for every failing analyzer); when the analyzer
call fails with message `e`, the human-readable note
"AI analysis failed: e" is recorded as the claim's `ai_analysis` in place
of structured insight, and the upload still succeeds. -/
theorem upload_document_appends_one (claim_id filename : String)
    (current_user : User) (send : String → Except String String) (now : Nat)
    (store : List Claim) (claim : Claim)
    (hfind : store.find? (fun c => c.id == claim_id) = some claim)
    (hauth : ¬(current_user.role = "Community User" ∧
               claim.user_id ≠ some current_user.id)) :
    (upload_document claim_id filename current_user send now store).1 =
      .ok { message := "Document uploaded and analyzed successfully"
            file_path := "/app/uploads/" ++ claim_id ++ "_" ++ filename
            ai_analysis := analyze_document_with_ai
              ("/app/uploads/" ++ claim_id ++ "_" ++ filename) claim send } ∧
    ∃ c2,
      (upload_document claim_id filename current_user send now store).2.find?
          (fun c => c.id == claim_id) = some c2 ∧
      c2.documents = claim.documents ++
        ["/app/uploads/" ++ claim_id ++ "_" ++ filename] ∧
      c2.documents.length = claim.documents.length + 1 ∧
      (∀ e, send (analysis_prompt claim) = .error e →
        c2.ai_analysis = some ("AI analysis failed: " ++ e)) := by
  have hp : (claim.id == claim_id) = true := by
    have h := List.find?_some hfind
    simpa using h
  set file_path := "/app/uploads/" ++ claim_id ++ "_" ++ filename with hfp
  set g : Claim → Claim := fun c =>
    { c with
      documents := c.documents ++ [file_path]
      ai_analysis := some (analyze_document_with_ai file_path claim send)
      updated_at := now } with hg
  have hpg : (fun c : Claim => c.id == claim_id) (g claim) = true := hp
  obtain ⟨-, hfind2⟩ := update_one_of_find?_eq_some
    (fun c => c.id == claim_id) g store claim hfind
  have hres := hfind2 hpg
  constructor
  · simp [upload_document, hfind, hauth]
  · refine ⟨g claim, ?_, by simp [hg], by simp [hg], ?_⟩
    · simpa [upload_document, hfind, hauth, hg] using hres
    · intro e he
      simp [hg, analyze_document_with_ai, he]

/-- Witness for C4: the owner's pending claim `sample_claim` receives a
document while the analyzer stub always raises "timeout": the upload
succeeds, exactly one document is appended, and the degraded note is
stored. -/
theorem upload_document_appends_one_witness :
    (upload_document "c1" "deed.pdf" sample_owner failing_send 5 [sample_claim]).1 =
      .ok { message := "Document uploaded and analyzed successfully"
            file_path := "/app/uploads/" ++ "c1" ++ "_" ++ "deed.pdf"
            ai_analysis := analyze_document_with_ai
              ("/app/uploads/" ++ "c1" ++ "_" ++ "deed.pdf") sample_claim failing_send } ∧
    ∃ c2,
      (upload_document "c1" "deed.pdf" sample_owner failing_send 5
          [sample_claim]).2.find? (fun c => c.id == "c1") = some c2 ∧
      c2.documents = sample_claim.documents ++
        ["/app/uploads/" ++ "c1" ++ "_" ++ "deed.pdf"] ∧
      c2.documents.length = sample_claim.documents.length + 1 ∧
      (∀ e, failing_send (analysis_prompt sample_claim) = .error e →
        c2.ai_analysis = some ("AI analysis failed: " ++ e)) :=
  upload_document_appends_one "c1" "deed.pdf" sample_owner failing_send 5
    [sample_claim] sample_claim (by decide) (by decide)

/-- C5: For every claim-list request: a requester whose role is
"Community User" receives exactly the claims they own (a claim is in the
response iff it is stored and owned by the requester, so never a claim they
do not own); a requester with any of the roles "NGO", "District Officer" or
"Ministry" receives the full stored corpus. -/
theorem get_claims_visibility (current_user : User) (store : List Claim) :
    (current_user.role = "Community User" →
       ∀ c, c ∈ get_claims current_user store ↔
         (c ∈ store ∧ c.user_id = some current_user.id)) ∧
    (current_user.role ∈ (["NGO", "District Officer", "Ministry"] : List String) →
       get_claims current_user store = store) := by
  constructor
  · intro h c
    simp [get_claims, h, List.mem_filter]
  · intro h
    have hne : current_user.role ≠ "Community User" := by
      simp only [List.mem_cons, List.not_mem_nil, or_false] at h
      rcases h with h | h | h <;> rw [h] <;> decide
    simp [get_claims, hne]

/-- Witness for C5: a "Community User" sees their own claim but not another
user's claim; a "District Officer" sees the full corpus. -/
theorem get_claims_visibility_witness :
    (sample_claim ∈ get_claims sample_owner [sample_claim, other_users_claim] ↔
       (sample_claim ∈ [sample_claim, other_users_claim] ∧
        sample_claim.user_id = some sample_owner.id)) ∧
    (other_users_claim ∈ get_claims sample_owner [sample_claim, other_users_claim] ↔
       (other_users_claim ∈ [sample_claim, other_users_claim] ∧
        other_users_claim.user_id = some sample_owner.id)) ∧
    get_claims sample_officer [sample_claim, other_users_claim] =
      [sample_claim, other_users_claim] :=
  ⟨(get_claims_visibility sample_owner [sample_claim, other_users_claim]).1
      rfl sample_claim,
   (get_claims_visibility sample_owner [sample_claim, other_users_claim]).1
      rfl other_users_claim,
   (get_claims_visibility sample_officer [sample_claim, other_users_claim]).2
      (by decide)⟩

/-- C6 counterexample: the claim "a newly created claim starts in the
initial status Pending, and no request may set a status outside
\x7bpending, under_review, approved, rejectedx7d" is false on the code.
A creation payload carrying `status := "approved"` yields a freshly created
claim whose status is "approved", not "pending" (creation copies the
payload's status); and an authorized status update happily writes the
string "garbage_status", which lies outside the four-value set. -/
theorem claim_status_unvalidated_counterexample :
    (create_claim spoofing_payload sample_owner "c9" 3 []).1.status = "approved" ∧
    (create_claim spoofing_payload sample_owner "c9" 3 []).1.status ≠ "pending" ∧
    (update_claim_status "c1" ⟨"garbage_status", none⟩ sample_officer 5
        [sample_claim]).1 = .ok () ∧
    ∃ c2 ∈ (update_claim_status "c1" ⟨"garbage_status", none⟩ sample_officer 5
        [sample_claim]).2, c2.status = "garbage_status" := by
  refine ⟨rfl, by decide, rfl, ?_⟩
  decide

/-- C6 amended: the status field is not confined to the four-value set and
the creation path bypasses the Pending start: a newly created claim carries
exactly the status string supplied in the creation payload (which defaults
to "pending" only when the payload omits the field), and an authorized
status update stores any requested status string without validation. -/
theorem claim_status_from_request (claim_data : FRAClaim) (current_user : User)
    (new_id : String) (now : Nat) (store : List Claim) :
    (create_claim claim_data current_user new_id now store).1.status =
      claim_data.status ∧
    (∀ (i t d : String) (l : Option Location) (cr up : Nat),
        ({ id := i, title := t, description := d, location := l,
           created_at := cr, updated_at := up } : FRAClaim).status = "pending") ∧
    (∀ (claim_id : String) (update_data : ClaimUpdate) (officer : User)
        (now2 : Nat) (store2 : List Claim) (c : Claim),
        officer.role = "District Officer" ∨ officer.role = "Ministry" →
        store2.find? (fun x => x.id == claim_id) = some c →
        now2 ≠ c.updated_at →
        ∃ c2,
          (update_claim_status claim_id update_data officer now2 store2).2.find?
              (fun x => x.id == claim_id) = some c2 ∧
          c2.status = update_data.status) := by
  refine ⟨rfl, fun _ _ _ _ _ _ => rfl, ?_⟩
  intro claim_id update_data officer now2 store2 c hrole hfind hne
  have hmem : officer.role ∈ (["District Officer", "Ministry"] : List String) := by
    rcases hrole with h | h <;> simp [h]
  obtain ⟨-, hfind2⟩ := update_claim_status_sets claim_id update_data officer
    now2 store2 c hmem hfind hne
  exact ⟨_, hfind2, rfl⟩

/-- Witness for the amended C6: the spoofing payload's "approved" status is
stored verbatim at creation, and an officer's "garbage_status" update is
stored verbatim. -/
theorem claim_status_from_request_witness :
    (create_claim spoofing_payload sample_owner "c9" 3 []).1.status =
      spoofing_payload.status ∧
    ∃ c2,
      (update_claim_status "c1" ⟨"garbage_status", none⟩ sample_officer 5
          [sample_claim]).2.find? (fun x => x.id == "c1") = some c2 ∧
      c2.status = "garbage_status" :=
  ⟨(claim_status_from_request spoofing_payload sample_owner "c9" 3 []).1,
   (claim_status_from_request spoofing_payload sample_owner "c9" 3 []).2.2
     "c1" ⟨"garbage_status", none⟩ sample_officer 5 [sample_claim] sample_claim
     (Or.inl rfl) (by decide) (by decide)⟩

/-- C7 counterexample: over a corpus of exactly one approved claim the
code's `approval_rate` is 100, not approved / total = 1/1: the dashboard's
approval rate is a percentage, so "an approval rate equal to
approved / total" is false on the code. -/
theorem approval_rate_percentage_counterexample :
    (get_dashboard_stats sample_officer failing_insights_send 0
        [approved_claim]).statistics.approval_rate = 100 ∧
    ¬((get_dashboard_stats sample_officer failing_insights_send 0
          [approved_claim]).statistics.approval_rate =
        ((get_dashboard_stats sample_officer failing_insights_send 0
            [approved_claim]).statistics.approved_claims : ℚ) /
          ((get_dashboard_stats sample_officer failing_insights_send 0
              [approved_claim]).statistics.total_claims : ℚ)) := by
  have happ : count_documents (fun c : Claim => c.status == "approved")
      [approved_claim] = 1 := by decide
  have htot : count_documents (fun _ : Claim => true) [approved_claim] = 1 := by
    decide
  have hrate : (get_dashboard_stats sample_officer failing_insights_send 0
      [approved_claim]).statistics.approval_rate = 100 := by
    norm_num [get_dashboard_stats, happ, htot]
  have happ2 : (get_dashboard_stats sample_officer failing_insights_send 0
      [approved_claim]).statistics.approved_claims = 1 := by
    simp [get_dashboard_stats, happ]
  have htot2 : (get_dashboard_stats sample_officer failing_insights_send 0
      [approved_claim]).statistics.total_claims = 1 := by
    simp [get_dashboard_stats, htot]
  refine ⟨hrate, ?_⟩
  rw [hrate, happ2, htot2]
  norm_num

/-- C7 amended: the dashboard statistics comprise the total claim count,
per-status counts for approved, pending and rejected only (the code
computes no count for the under_review status), and an approval rate equal
to approved / total * 100 — a percentage — defined as 0 when the total is
0: the zero-total case is special-cased by the guard, never propagated as
an arithmetic error. -/
theorem get_dashboard_stats_statistics (current_user : User)
    (send : InsightsPrompt → Except String String) (now : Nat)
    (store : List Claim) :
    (get_dashboard_stats current_user send now store).statistics.total_claims =
      store.length ∧
    (get_dashboard_stats current_user send now store).statistics.approved_claims =
      (store.filter (fun c => c.status == "approved")).length ∧
    (get_dashboard_stats current_user send now store).statistics.pending_claims =
      (store.filter (fun c => c.status == "pending")).length ∧
    (get_dashboard_stats current_user send now store).statistics.rejected_claims =
      (store.filter (fun c => c.status == "rejected")).length ∧
    (store.length = 0 →
      (get_dashboard_stats current_user send now store).statistics.approval_rate = 0) ∧
    (0 < store.length →
      (get_dashboard_stats current_user send now store).statistics.approval_rate =
        ((store.filter (fun c => c.status == "approved")).length : ℚ) /
          (store.length : ℚ) * 100) := by
  refine ⟨?_, rfl, rfl, rfl, ?_, ?_⟩
  · simp [get_dashboard_stats, count_documents]
  · intro h0
    have hs : store = [] := List.length_eq_zero.mp h0
    subst hs
    simp [get_dashboard_stats, count_documents]
  · intro hpos
    simp [get_dashboard_stats, count_documents, hpos]

/-- Witness for the amended C7: the approval rate is 0 over the empty
corpus and 100 over a single approved claim (1/1 * 100). -/
theorem get_dashboard_stats_statistics_witness :
    ((get_dashboard_stats sample_officer failing_insights_send 0
        []).statistics.approval_rate = 0) ∧
    ((get_dashboard_stats sample_officer failing_insights_send 0
        [approved_claim]).statistics.approval_rate =
      (([approved_claim].filter (fun c => c.status == "approved")).length : ℚ) /
        (([approved_claim] : List Claim).length : ℚ) * 100) :=
  ⟨(get_dashboard_stats_statistics sample_officer failing_insights_send 0
      []).2.2.2.2.1 rfl,
   (get_dashboard_stats_statistics sample_officer failing_insights_send 0
      [approved_claim]).2.2.2.2.2 (by decide)⟩

/-- Shared helper: the summary report has exactly one group per distinct
`location.state` key of the stored claims, in dedup order. -/
theorem get_summary_report_ids (current_user : User) (store : List Claim) :
    (get_summary_report current_user store).map RegionGroup.id =
      (store.map state_key).dedup := by
  simp [get_summary_report, List.map_map]
  have h : (RegionGroup.id ∘ group_for store) = id := by
    funext k
    simp [group_for]
  simp [h]

/-- C8: The regional summary groups claims by `location.state`: a group
with key `k` exists iff some stored claim has state key `k` (so an
absent/null state forms its own `none` bucket rather than being dropped);
every emitted group carries the group total and the per-status counts of
its members; and over the three claims of the spec's example the report is
exactly group A with total 2, approved 1, pending 1, rejected 0, and group
B with total 1, approved 0, pending 0, rejected 1. -/
theorem get_summary_report_groups (current_user : User) (store : List Claim) :
    (∀ k : Option String,
       (∃ g ∈ get_summary_report current_user store, g.id = k) ↔
       (∃ c ∈ store, state_key c = k)) ∧
    (∀ g ∈ get_summary_report current_user store,
       g.total_claims = (store.filter (fun c => state_key c == g.id)).length ∧
       g.approved = ((store.filter (fun c => state_key c == g.id)).filter
         (fun c => c.status == "approved")).length ∧
       g.pending = ((store.filter (fun c => state_key c == g.id)).filter
         (fun c => c.status == "pending")).length ∧
       g.rejected = ((store.filter (fun c => state_key c == g.id)).filter
         (fun c => c.status == "rejected")).length) ∧
    get_summary_report current_user
        [claim_A_approved, claim_A_pending, claim_B_rejected] =
      [⟨some "A", 2, 1, 1, 0⟩, ⟨some "B", 1, 0, 0, 1⟩] := by
  have hexample :
      get_summary_report sample_officer
          [claim_A_approved, claim_A_pending, claim_B_rejected] =
        [⟨some "A", 2, 1, 1, 0⟩, ⟨some "B", 1, 0, 0, 1⟩] := by decide
  refine ⟨?_, ?_, hexample⟩
  · intro k
    constructor
    · rintro ⟨g, hg, rfl⟩
      simp only [get_summary_report, List.mem_map] at hg
      obtain ⟨k', hk', rfl⟩ := hg
      have hmem : k' ∈ store.map state_key := List.mem_dedup.mp hk'
      obtain ⟨c, hc, hck⟩ := List.mem_map.mp hmem
      exact ⟨c, hc, by simpa [group_for] using hck⟩
    · rintro ⟨c, hc, hk⟩
      refine ⟨group_for store k, ?_, rfl⟩
      simp only [get_summary_report, List.mem_map]
      exact ⟨k, List.mem_dedup.mpr (List.mem_map.mpr ⟨c, hc, hk⟩), rfl⟩
  · intro g hg
    simp only [get_summary_report, List.mem_map] at hg
    obtain ⟨k, hk, rfl⟩ := hg
    exact ⟨rfl, rfl, rfl, rfl⟩

/-- Witness for C8: in the three-claim example the key `some "A"` is a
group iff a claim has that state key, and the emitted A group's counts
equal the filtered counts of its members. -/
theorem get_summary_report_groups_witness :
    ((∃ g ∈ get_summary_report sample_officer
        [claim_A_approved, claim_A_pending, claim_B_rejected],
        g.id = some "A") ↔
      (∃ c ∈ ([claim_A_approved, claim_A_pending, claim_B_rejected] : List Claim),
        state_key c = some "A")) ∧
    ((⟨some "A", 2, 1, 1, 0⟩ : RegionGroup).total_claims =
      (([claim_A_approved, claim_A_pending, claim_B_rejected] : List Claim).filter
        (fun c => state_key c == (⟨some "A", 2, 1, 1, 0⟩ : RegionGroup).id)).length) :=
  ⟨(get_summary_report_groups sample_officer
      [claim_A_approved, claim_A_pending, claim_B_rejected]).1 (some "A"),
   ((get_summary_report_groups sample_officer
      [claim_A_approved, claim_A_pending, claim_B_rejected]).2.1
      ⟨some "A", 2, 1, 1, 0⟩ (by decide)).1⟩

/-- C9: When the external AI call fails with message `e`, the
dashboard-insights computation returns the degraded payload carrying
"Insights generation failed: e" together with the generation timestamp; on
success it returns the AI text verbatim with the timestamp; the prompt it
sends embeds the statistics (total and the three status counts) and the
first 5 raw claim records; and the dashboard endpoint embeds the insights
payload unconditionally — `get_dashboard_stats` is total, so the AI failure
never surfaces as a request failure. -/
theorem insights_degrade_gracefully (claims_data : List Claim)
    (send : InsightsPrompt → Except String String) (now : Nat) :
    (∀ e, send (insights_prompt claims_data) = .error e →
       generate_insights_for_dashboard claims_data send now =
         { ai_insights := "Insights generation failed: " ++ e
           generated_at := now }) ∧
    (∀ r, send (insights_prompt claims_data) = .ok r →
       generate_insights_for_dashboard claims_data send now =
         { ai_insights := r, generated_at := now }) ∧
    (insights_prompt claims_data).sample_claims = claims_data.take 5 ∧
    (insights_prompt claims_data).total_claims = claims_data.length ∧
    (insights_prompt claims_data).approved =
      (claims_data.filter (fun c => c.status == "approved")).length ∧
    (insights_prompt claims_data).pending =
      (claims_data.filter (fun c => c.status == "pending")).length ∧
    (insights_prompt claims_data).rejected =
      (claims_data.filter (fun c => c.status == "rejected")).length ∧
    (∀ u : User, (get_dashboard_stats u send now claims_data).ai_insights =
       generate_insights_for_dashboard claims_data send now) := by
  refine ⟨?_, ?_, rfl, rfl, rfl, rfl, rfl, fun u => rfl⟩
  · intro e he
    simp [generate_insights_for_dashboard, he]
  · intro r hr
    simp [generate_insights_for_dashboard, hr]

/-- Witness for C9: a stub that always raises "quota exceeded" yields the
degraded payload with the timestamp; a stub that answers "narrative"
yields that text verbatim with the timestamp. -/
theorem insights_degrade_gracefully_witness :
    generate_insights_for_dashboard [sample_claim] failing_insights_send 7 =
      { ai_insights := "Insights generation failed: " ++ "quota exceeded"
        generated_at := 7 } ∧
    generate_insights_for_dashboard [sample_claim] ok_insights_send 7 =
      { ai_insights := "narrative", generated_at := 7 } :=
  ⟨(insights_degrade_gracefully [sample_claim] failing_insights_send 7).1
      "quota exceeded" rfl,
   (insights_degrade_gracefully [sample_claim] ok_insights_send 7).2.1
      "narrative" rfl⟩

/-- C10: The map-data endpoint, the dashboard statistics and the regional
summary are computed over the full claim corpus for every authenticated
user, whatever their role: each is literally independent of the requesting
user, every stored claim with a (truthy) location yields a map entry
with its id, title, status, location and creation time, the statistics
total the whole corpus, and the summary has one group per distinct state
key of the whole corpus. In particular a "Community User" observes other
users' claim locations and statuses through these endpoints — the
ownership restriction lives only in the claim-list and single-claim
reads. -/
theorem aggregates_serve_all_roles (current_user other_user : User)
    (send : InsightsPrompt → Except String String) (now : Nat)
    (store : List Claim) :
    get_map_data current_user store = get_map_data other_user store ∧
    (∀ c ∈ store, ∀ loc, c.location = some loc →
       ({ id := c.id, title := c.title, status := c.status, location := loc,
          created_at := c.created_at } : MapEntry) ∈
         get_map_data current_user store) ∧
    (get_dashboard_stats current_user send now store).statistics =
      (get_dashboard_stats other_user send now store).statistics ∧
    (get_dashboard_stats current_user send now store).statistics.total_claims =
      store.length ∧
    get_summary_report current_user store = get_summary_report other_user store ∧
    (get_summary_report current_user store).map RegionGroup.id =
      (store.map state_key).dedup := by
  refine ⟨rfl, ?_, rfl, ?_, rfl, get_summary_report_ids current_user store⟩
  · intro c hc loc hloc
    simp only [get_map_data, List.mem_filterMap]
    exact ⟨c, hc, by simp [hloc]⟩
  · simp [get_dashboard_stats, count_documents]

/-- Witness for C10: a "Community User" requesting map data over a corpus
holding only somebody else's located claim receives that claim's entry. -/
theorem aggregates_serve_all_roles_witness :
    ({ id := other_users_claim.id, title := other_users_claim.title,
       status := other_users_claim.status, location := sample_location_A,
       created_at := other_users_claim.created_at } : MapEntry) ∈
      get_map_data sample_owner [other_users_claim] :=
  (aggregates_serve_all_roles sample_owner sample_officer failing_insights_send 0
      [other_users_claim]).2.1 other_users_claim (by simp) sample_location_A rfl
